import Mathlib

/-!
Shallow embedding of the ORACLE_2.0 Schelling-point oracle simulator
(src/agents.py, src/model.py, src/appeals.py) and proofs about it.

Conventions of the embedding:
* Python floats are modelled as rationals.
* The implicit global random source of the Python code is modelled as an
  explicit tape of rational draws together with a read position.  A call
  to random.random() reads one cell; a call to random.gauss(mu, sigma)
  reads one cell z and returns mu + sigma * z, the cell standing for the
  realized standard normal variate of that call.
* The Python string labels "X", "Y", "A" and "B" are the four
  constructors of the type Lbl.  model.py assigns beliefs and counts
  votes with the labels X and Y while agents.py (decide_vote) produces
  the labels A and B on its strategic paths; the embedding keeps both
  conventions exactly as the code has them.
* The module payoff_mechanisms.py is imported by model.py but is not
  among the source files; the six compute_payoff functions are modelled
  from the spec (section 4.3), as marked in their doc comments.
-/

namespace Oracle

/-- Vote and outcome labels used by the Python code as plain strings. -/
inductive Lbl where
  | X
  | Y
  | A
  | B
deriving DecidableEq, Repr

/-- Explicit random source: a tape of rational draws and a read position. -/
structure RandState where
  tape : Nat → Rat
  pos : Nat

/-- Model of random.random(): consume one draw from the tape. -/
def randomRandom (s : RandState) : Rat × RandState :=
  (s.tape s.pos, ⟨s.tape, s.pos + 1⟩)

/-- Model of random.gauss(mu, sigma): consume one draw z from the tape and
return mu + sigma * z. -/
def randomGauss (mu sigma : Rat) (s : RandState) : Rat × RandState :=
  (mu + sigma * s.tape s.pos, ⟨s.tape, s.pos + 1⟩)

/-- Model of Python str.lower restricted to what the code needs: lower-case
every character of the string.  (String.toLower of the core library is
extensionally the same; this formulation keeps kernel evaluation simple.) -/
def pyLower (s : String) : String :=
  ⟨s.data.map Char.toLower⟩

/-- Model of math.isclose with rel_tol = 1e-9 and abs_tol = 0 (the call in
agents.py line 41): abs (a - b) bounded by rel_tol times the larger of the
absolute values. -/
def isClose (a b : Rat) : Bool :=
  decide (|a - b| ≤ (1 / 1000000000) * max |a| |b|)

/-- Model of np.mean on a list of rationals. -/
def mean (l : List Rat) : Rat :=
  l.sum / (l.length : Rat)

/-- Model of scipy.stats.binom.pmf k n q for an integer k:
choose n k * q ^ k * (1 - q) ^ (n - k). -/
def binomPmf (k n : Nat) (q : Rat) : Rat :=
  (n.choose k : Rat) * q ^ k * (1 - q) ^ (n - k)

/-- Juror state from agents.py.  Python initialises belief to None and
overwrites it before any use (simulate_once step 1); the embedding uses the
label X as the inert initial value. -/
structure Juror where
  honesty : Rat
  rationality : Rat
  noise : Rat
  belief : Lbl
  bribed : Bool
deriving DecidableEq, Repr

/-- Juror.__init__ from agents.py lines 16-21. -/
def Juror.init (honesty rationality noise : Rat) : Juror :=
  { honesty := honesty, rationality := rationality, noise := noise,
    belief := Lbl.X, bribed := false }

/-- Juror.decide_vote from agents.py lines 23-50, translated clause by
clause.  A bribed juror returns the label B at once; otherwise one uniform
draw gates the sincere vote, two gaussian draws perturb the expected
payoffs, the better perceived option (with isClose ties going to the
belief) is followed with probability rationality and inverted otherwise. -/
def Juror.decide_vote (j : Juror) (exp_payoff_A exp_payoff_B : Rat)
    (s : RandState) : Lbl × RandState :=
  if j.bribed then (Lbl.B, s)
  else
    let u1 := randomRandom s
    if u1.1 < j.honesty then (j.belief, u1.2)
    else
      let g1 := randomGauss 0 j.noise u1.2
      let g2 := randomGauss 0 j.noise g1.2
      let perceived_A := exp_payoff_A + g1.1
      let perceived_B := exp_payoff_B + g2.1
      let best0 := if perceived_A > perceived_B then Lbl.A else Lbl.B
      let best := if isClose perceived_A perceived_B then j.belief else best0
      let u2 := randomRandom g2.2
      if u2.1 < j.rationality then (best, u2.2)
      else (if best = Lbl.B then Lbl.A else Lbl.B, u2.2)

/-- OracleModel state from model.py.  The fields are the constructor
parameters stored by __init__ plus the juror panel and the two history
lists it initialises.  selected_jurors is the very same list object as
jurors (model.py line 33) and is therefore elided; the result-cache
attributes (votes, avg_payoff_X, avg_payoff_Y) that some methods attach
dynamically are not part of any claim and are elided as well. -/
structure Model where
  num_jurors : Nat
  honesty : Rat
  rationality : Rat
  noise : Rat
  p : Rat
  d : Rat
  epsilon : Rat
  payoff_type : String
  attack : Bool
  x_guess_noise : Rat
  jurors : List Juror
  history_X : List Nat
  history_Y : List Nat
deriving DecidableEq, Repr

/-- OracleModel.__init__ from model.py lines 15-37.  The body only stores
the parameters and builds the juror panel; it contains no validation of
any kind and cannot raise. -/
def OracleModel.init (num_jurors : Nat) (honesty rationality noise p d epsilon : Rat)
    (payoff_type : String) (attack : Bool) (x_guess_noise : Rat) : Model :=
  { num_jurors := num_jurors, honesty := honesty, rationality := rationality,
    noise := noise, p := p, d := d, epsilon := epsilon,
    payoff_type := payoff_type, attack := attack,
    x_guess_noise := x_guess_noise,
    jurors := List.replicate num_jurors (Juror.init honesty rationality noise),
    history_X := [], history_Y := [] }

/-- Modelled from the spec: payoff_mechanisms.py is missing from the
sources, only its import and call sites are present.  The call sites pass
k (the number of X votes among the other jurors) and the panel size; the
evaluated juror adds one X vote when voting X, and the winning side is the
outcome argument, which gives the head-count of the winning coalition. -/
def winnersOf (vote outcome : Lbl) (k num_jurors : Nat) : Nat :=
  let xTotal := k + (if vote = Lbl.X then 1 else 0)
  if outcome = Lbl.X then xTotal else num_jurors - xTotal

/-- Modelled from the spec: compute_payoff_basic_no_attack of the missing
payoff_mechanisms.py, from section 4.3: the winner gets d + p * d, the
loser gets 0. -/
def compute_payoff_basic_no_attack (vote outcome : Lbl) (p d : Rat) : Rat :=
  if vote = outcome then d + p * d else 0

/-- Modelled from the spec: compute_payoff_basic_attack of the missing
payoff_mechanisms.py, from section 4.3: as without attack, except that a
loser who voted the target outcome Y is compensated d + epsilon. -/
def compute_payoff_basic_attack (vote outcome : Lbl) (p d epsilon : Rat) : Rat :=
  if vote = outcome then d + p * d
  else if vote = Lbl.Y then d + epsilon
  else 0

/-- Modelled from the spec: compute_payoff_redistributive_no_attack of the
missing payoff_mechanisms.py, from section 4.3: winners split the losers
deposits, winner payoff d + losers * d / winners (d alone when there are
zero losers or zero winners), loser payoff 0. -/
def compute_payoff_redistributive_no_attack (vote outcome : Lbl) (k num_jurors : Nat)
    (p d : Rat) : Rat :=
  let winners := winnersOf vote outcome k num_jurors
  let losers := num_jurors - winners
  if vote = outcome then
    if winners = 0 ∨ losers = 0 then d else d + (losers : Rat) * d / (winners : Rat)
  else 0

/-- Modelled from the spec: compute_payoff_redistributive_attack of the
missing payoff_mechanisms.py, from section 4.3: as without attack with the
attack compensation d + epsilon for losing voters of the target outcome Y. -/
def compute_payoff_redistributive_attack (vote outcome : Lbl) (k num_jurors : Nat)
    (p d epsilon : Rat) : Rat :=
  let winners := winnersOf vote outcome k num_jurors
  let losers := num_jurors - winners
  if vote = outcome then
    if winners = 0 ∨ losers = 0 then d else d + (losers : Rat) * d / (winners : Rat)
  else if vote = Lbl.Y then d + epsilon
  else 0

/-- Modelled from the spec: compute_payoff_symbiotic_no_attack of the
missing payoff_mechanisms.py, from section 4.3 with beta = 1/2 and
external reward p * d: winner payoff d + losers * beta * d / winners +
p * d (without the division term when there are zero losers or zero
winners), loser payoff (1 - beta) * d. -/
def compute_payoff_symbiotic_no_attack (vote outcome : Lbl) (k num_jurors : Nat)
    (p d : Rat) : Rat :=
  let winners := winnersOf vote outcome k num_jurors
  let losers := num_jurors - winners
  if vote = outcome then
    (if winners = 0 ∨ losers = 0 then d
     else d + (losers : Rat) * (1 / 2) * d / (winners : Rat)) + p * d
  else (1 - 1 / 2) * d

/-- Modelled from the spec: compute_payoff_symbiotic_attack of the missing
payoff_mechanisms.py, from section 4.3: as without attack with the attack
compensation d + epsilon for losing voters of the target outcome Y. -/
def compute_payoff_symbiotic_attack (vote outcome : Lbl) (k num_jurors : Nat)
    (p d epsilon : Rat) : Rat :=
  let winners := winnersOf vote outcome k num_jurors
  let losers := num_jurors - winners
  if vote = outcome then
    (if winners = 0 ∨ losers = 0 then d
     else d + (losers : Rat) * (1 / 2) * d / (winners : Rat)) + p * d
  else if vote = Lbl.Y then d + epsilon
  else (1 - 1 / 2) * d

/-- Per-k pair of hypothetical payoffs (voting X, voting Y) inside
OracleModel._expected_payoffs, model.py lines 56-93.  bribed is the value
of self.jurors[juror_index].bribed read by the attack branches; when it is
set, payoff_Y is overwritten with the X-branch payoff plus epsilon exactly
as in lines 68-69, 73-74 and 78-79.  votes_Y_ifX and votes_X_ifY of the
Python code are computed but never used and are elided. -/
def epayTerm (m : Model) (bribed : Bool) (k : Nat) : Rat × Rat :=
  let other_count := m.num_jurors - 1
  let majority_needed := m.num_jurors / 2 + 1
  let votes_X_ifX := k + 1
  let votes_Y_ifY := other_count - k + 1
  let winner_ifX := if votes_X_ifX ≥ majority_needed then Lbl.X else Lbl.Y
  let winner_ifY := if votes_Y_ifY < majority_needed then Lbl.X else Lbl.Y
  if m.attack then
    if pyLower m.payoff_type = "basic" then
      let payoff_X := compute_payoff_basic_attack Lbl.X winner_ifX m.p m.d m.epsilon
      let payoff_Y := compute_payoff_basic_attack Lbl.Y winner_ifY m.p m.d m.epsilon
      (payoff_X,
       if bribed then
         compute_payoff_basic_attack Lbl.X winner_ifX m.p m.d m.epsilon + m.epsilon
       else payoff_Y)
    else if pyLower m.payoff_type = "redistributive" then
      let payoff_X := compute_payoff_redistributive_attack Lbl.X winner_ifX k m.num_jurors m.p m.d m.epsilon
      let payoff_Y := compute_payoff_redistributive_attack Lbl.Y winner_ifY k m.num_jurors m.p m.d m.epsilon
      (payoff_X,
       if bribed then
         compute_payoff_redistributive_attack Lbl.X winner_ifX k m.num_jurors m.p m.d m.epsilon + m.epsilon
       else payoff_Y)
    else if pyLower m.payoff_type = "symbiotic" then
      let payoff_X := compute_payoff_symbiotic_attack Lbl.X winner_ifX k m.num_jurors m.p m.d m.epsilon
      let payoff_Y := compute_payoff_symbiotic_attack Lbl.Y winner_ifY k m.num_jurors m.p m.d m.epsilon
      (payoff_X,
       if bribed then
         compute_payoff_symbiotic_attack Lbl.X winner_ifX k m.num_jurors m.p m.d m.epsilon + m.epsilon
       else payoff_Y)
    else (0, 0)
  else
    if pyLower m.payoff_type = "basic" then
      (compute_payoff_basic_no_attack Lbl.X winner_ifX m.p m.d,
       compute_payoff_basic_no_attack Lbl.Y winner_ifY m.p m.d)
    else if pyLower m.payoff_type = "redistributive" then
      (compute_payoff_redistributive_no_attack Lbl.X winner_ifX k m.num_jurors m.p m.d,
       compute_payoff_redistributive_no_attack Lbl.Y winner_ifY k m.num_jurors m.p m.d)
    else if pyLower m.payoff_type = "symbiotic" then
      (compute_payoff_symbiotic_no_attack Lbl.X winner_ifX k m.num_jurors m.p m.d,
       compute_payoff_symbiotic_no_attack Lbl.Y winner_ifY k m.num_jurors m.p m.d)
    else (0, 0)

/-- Accumulation step of the k-loop of _expected_payoffs, model.py lines
56-96: add prob * payoff to each running expectation. -/
def epayStep (m : Model) (bribed : Bool) (q : Rat) (acc : Rat × Rat) (k : Nat) :
    Rat × Rat :=
  let prob := binomPmf k (m.num_jurors - 1) q
  let t := epayTerm m bribed k
  (acc.1 + prob * t.1, acc.2 + prob * t.2)

/-- OracleModel._expected_payoffs from model.py lines 39-98.  One gaussian
draw with mean 0.5 and std x_guess_noise, clamped to [0, 1], gives the
peer-vote probability q; the loop over np.arange(0, other_count + 1)
enumerates k = 0 .. num_jurors - 1, which is List.range num_jurors (and is
empty for an empty panel, matching arange on a negative upper bound). -/
def expectedPayoffs (m : Model) (juror_index : Nat) (s : RandState) :
    (Rat × Rat) × RandState :=
  let g := randomGauss (1 / 2) m.x_guess_noise s
  let q := max 0 (min 1 g.1)
  let bribed := (m.jurors.getD juror_index (Juror.init 0 0 0)).bribed
  ((List.range m.num_jurors).foldl (epayStep m bribed q) (0, 0), g.2)

/-- Steps 1 and 2 of simulate_once, model.py lines 114-117: walk the panel
in order, reset bribed to false and draw a fresh belief (X with
probability p) for each juror, consuming one uniform draw per juror. -/
def assignBeliefs (p : Rat) : List Juror → RandState → List Juror × RandState
  | [], s => ([], s)
  | j :: js, s =>
    let u := randomRandom s
    let j2 := { j with bribed := false,
                       belief := if u.1 < p then Lbl.X else Lbl.Y }
    let rest := assignBeliefs p js u.2
    (j2 :: rest.1, rest.2)

/-- Step 3 of simulate_once, model.py lines 124-133: for each juror in
index order compute the expected payoffs and obtain its vote.  The vote
list is returned; the first-pass x_payoffs / y_payoffs lists built here by
the Python code are overwritten unused at lines 145-146 and are elided. -/
def collectVotes (m : Model) : List Juror → Nat → RandState → List Lbl × RandState
  | [], _, s => ([], s)
  | j :: js, i, s =>
    let ep := expectedPayoffs m i s
    let dv := j.decide_vote ep.1.1 ep.1.2 ep.2
    let rest := collectVotes m js (i + 1) dv.2
    (dv.1 :: rest.1, rest.2)

/-- Outcome resolution of model.py line 140: X on votes_for_X greater or
equal votes_for_Y, Y otherwise. -/
def outcomeOf (votes_for_X votes_for_Y : Nat) : Lbl :=
  if votes_for_X ≥ votes_for_Y then Lbl.X else Lbl.Y

/-- Realized payoff dispatch of model.py lines 151-168: branch on attack
and on payoff_type.lower(), defaulting to 0.0 for an unrecognized type. -/
def realizedPayoff (m : Model) (vote outcome : Lbl) (k : Nat) : Rat :=
  if m.attack then
    if pyLower m.payoff_type = "basic" then
      compute_payoff_basic_attack vote outcome m.p m.d m.epsilon
    else if pyLower m.payoff_type = "redistributive" then
      compute_payoff_redistributive_attack vote outcome k m.num_jurors m.p m.d m.epsilon
    else if pyLower m.payoff_type = "symbiotic" then
      compute_payoff_symbiotic_attack vote outcome k m.num_jurors m.p m.d m.epsilon
    else 0
  else
    if pyLower m.payoff_type = "basic" then
      compute_payoff_basic_no_attack vote outcome m.p m.d
    else if pyLower m.payoff_type = "redistributive" then
      compute_payoff_redistributive_no_attack vote outcome k m.num_jurors m.p m.d
    else if pyLower m.payoff_type = "symbiotic" then
      compute_payoff_symbiotic_no_attack vote outcome k m.num_jurors m.p m.d
    else 0

/-- Realized-payoff loop of model.py lines 145-173: for each vote in index
order compute k as the X votes of the full list minus the own X vote and
append the mechanism payoff to the x side on a vote equal to the label X
and to the y side otherwise (so the labels Y, A and B all land on the y
side, exactly as the else of line 172 does). -/
def payoffLists (m : Model) (allVotes : List Lbl) (outcome : Lbl) :
    List Lbl → List Rat × List Rat
  | [] => ([], [])
  | v :: vs =>
    let k := allVotes.count Lbl.X - (if v = Lbl.X then 1 else 0)
    let pay := realizedPayoff m v outcome k
    let rest := payoffLists m allVotes outcome vs
    if v = Lbl.X then (pay :: rest.1, rest.2) else (rest.1, pay :: rest.2)

/-- Round result of simulate_once (the returned 5-tuple of model.py line
176, with named fields). -/
structure SimResult where
  outcome : Lbl
  votesX : Nat
  votesY : Nat
  avgX : Rat
  avgY : Rat
deriving DecidableEq, Repr

/-- OracleModel.simulate_once from model.py lines 100-176: assign beliefs,
mark the whole panel bribed when attack is enabled, collect one vote per
juror, count the X and Y votes, resolve the outcome (ties to X), recompute
realized payoffs from the actual tally and average them per side with 0.0
for an empty side.  The updated model (jurors carry the beliefs and bribed
flags of the round) is returned alongside the result. -/
def simulate_once (m : Model) (s : RandState) : SimResult × Model × RandState :=
  let ab := assignBeliefs m.p m.jurors s
  let js2 := if m.attack then ab.1.map (fun j => { j with bribed := true }) else ab.1
  let m2 := { m with jurors := js2 }
  let cv := collectVotes m2 js2 0 ab.2
  let votes := cv.1
  let votes_for_X := votes.count Lbl.X
  let votes_for_Y := votes.count Lbl.Y
  let outcome := outcomeOf votes_for_X votes_for_Y
  let pl := payoffLists m2 votes outcome votes
  ({ outcome := outcome, votesX := votes_for_X, votesY := votes_for_Y,
     avgX := if pl.1.isEmpty then 0 else mean pl.1,
     avgY := if pl.2.isEmpty then 0 else mean pl.2 },
   m2, cv.2)

/-- Loop body of OracleModel.run_simulations, model.py lines 209-240: run
the attacked round, and when the attack flag is set run a paired round
with the flag cleared and restore it, accumulating the per-round vote
counts of the attacked run (the histories).  Progress reporting and the
aggregate arrays not named by any claim are elided. -/
def runSimLoop : Model → Nat → RandState → List Nat → List Nat →
    Model × RandState × List Nat × List Nat
  | m, 0, s, hx, hy => (m, s, hx, hy)
  | m, n + 1, s, hx, hy =>
    let r := simulate_once m s
    let m1 := r.2.1
    if m1.attack then
      let r2 := simulate_once { m1 with attack := false } r.2.2
      let m3 := { r2.2.1 with attack := true }
      runSimLoop m3 n r2.2.2 (hx ++ [r.1.votesX]) (hy ++ [r.1.votesY])
    else
      runSimLoop m1 n r.2.2 (hx ++ [r.1.votesX]) (hy ++ [r.1.votesY])

/-- OracleModel.run_simulations from model.py lines 178-291, reduced to the
state it leaves behind: clear the history lists, run the loop, store the
collected per-round vote counts as the new histories.  The returned results
dictionary is not named by any claim and is elided. -/
def run_simulations (m : Model) (num_simulations : Nat) (s : RandState) :
    Model × RandState :=
  let m0 := { m with history_X := [], history_Y := [] }
  let r := runSimLoop m0 num_simulations s [] []
  ({ r.1 with history_X := r.2.2.1, history_Y := r.2.2.2 }, r.2.1)

/-- Configuration dictionary built by simulate_appeal_chain, appeals.py
lines 8-13: every constructor parameter of OracleModel except the juror
count. -/
structure Params where
  honesty : Rat
  rationality : Rat
  noise : Rat
  p : Rat
  d : Rat
  epsilon : Rat
  payoff_type : String
  attack : Bool
  x_guess_noise : Rat
deriving DecidableEq, Repr

/-- The params dictionary extracted from a model, appeals.py lines 8-13. -/
def paramsOf (m : Model) : Params :=
  { honesty := m.honesty, rationality := m.rationality, noise := m.noise,
    p := m.p, d := m.d, epsilon := m.epsilon, payoff_type := m.payoff_type,
    attack := m.attack, x_guess_noise := m.x_guess_noise }

/-- OracleModel(num_jurors = n, **params), appeals.py lines 16 and 21. -/
def mkModel (n : Nat) (pr : Params) : Model :=
  OracleModel.init n pr.honesty pr.rationality pr.noise pr.p pr.d pr.epsilon
    pr.payoff_type pr.attack pr.x_guess_noise

/-- Return value of simulate_round, appeals.py line 26 (a 7-tuple, with
named fields). -/
structure RoundOut where
  outcome : Lbl
  vx : Nat
  vy : Nat
  vyNoAttack : Option Nat
  px : Rat
  py : Rat
  nj : Nat
deriving DecidableEq, Repr

/-- simulate_round from appeals.py lines 14-26: a fresh OracleModel with
the given juror count and the carried configuration runs one round; when
the attack flag of the configuration is set, a second fresh model with the
flag cleared is run for comparison and its Y votes are recorded. -/
def simulate_round (pr : Params) (n_jurors : Nat) (s : RandState) :
    RoundOut × RandState :=
  let r := simulate_once (mkModel n_jurors pr) s
  if pr.attack then
    let r2 := simulate_once (mkModel n_jurors { pr with attack := false }) r.2.2
    ({ outcome := r.1.outcome, vx := r.1.votesX, vy := r.1.votesY,
       vyNoAttack := some r2.1.votesY, px := r.1.avgX, py := r.1.avgY,
       nj := n_jurors }, r2.2.2)
  else
    ({ outcome := r.1.outcome, vx := r.1.votesX, vy := r.1.votesY,
       vyNoAttack := none, px := r.1.avgX, py := r.1.avgY,
       nj := n_jurors }, r.2.2)

/-- One appended chain entry, appeals.py lines 31 and 37 (the tuple
(level, current_jurors, vx, vy, vy_no_attack, px, py, outcome), with named
fields). -/
structure ChainEntry where
  level : Nat
  jurors : Nat
  vx : Nat
  vy : Nat
  vyNoAttack : Option Nat
  px : Rat
  py : Rat
  outcome : Lbl
deriving DecidableEq, Repr

/-- The chain entry appended for a round, appeals.py lines 31 and 37. -/
def entryOf (level current_jurors : Nat) (r : RoundOut) : ChainEntry :=
  { level := level, jurors := current_jurors, vx := r.vx, vy := r.vy,
    vyNoAttack := r.vyNoAttack, px := r.px, py := r.py, outcome := r.outcome }

/-- The while loop of simulate_appeal_chain, appeals.py lines 33-37: each
iteration first consumes one uniform draw (Python evaluates
random.random() before the level bound, even at the last level); when the
draw is below appeal_prob and the level bound holds, the level advances,
the juror count doubles plus one, a round runs and its entry is appended. -/
def chainLoop (pr : Params) (appeal_prob : Rat) (level current_jurors max_appeals : Nat)
    (s : RandState) : List ChainEntry × RandState :=
  let u := randomRandom s
  if h : u.1 < appeal_prob ∧ level < max_appeals then
    let level2 := level + 1
    let cur2 := current_jurors * 2 + 1
    let r := simulate_round pr cur2 u.2
    let rest := chainLoop pr appeal_prob level2 cur2 max_appeals r.2
    (entryOf level2 cur2 r.1 :: rest.1, rest.2)
  else ([], u.2)
termination_by max_appeals - level
decreasing_by
  simp_wf
  omega

/-- simulate_appeal_chain from appeals.py lines 5-38: run the level-0 round
with the base juror count, then the while loop of escalating rounds. -/
def simulate_appeal_chain (m : Model) (appeal_prob : Rat) (max_appeals : Nat)
    (s : RandState) : List ChainEntry × RandState :=
  let pr := paramsOf m
  let r0 := simulate_round pr m.num_jurors s
  let rest := chainLoop pr appeal_prob 0 m.num_jurors max_appeals r0.2
  (entryOf 0 m.num_jurors r0.1 :: rest.1, rest.2)

/-- The statement that the first L continuation draws of the appeal loop
all succeeded: starting from the given level, juror count and random
state, each of the L iterations found its uniform draw below appeal_prob
and its level below max_appeals, threading the state exactly as the loop
does (one draw, then one round per iteration). -/
def drawsSucceed (pr : Params) (appeal_prob : Rat) (max_appeals : Nat) :
    Nat → Nat → RandState → Nat → Prop
  | _, _, _, 0 => True
  | level, cur, s, L + 1 =>
    (randomRandom s).1 < appeal_prob ∧ level < max_appeals ∧
      drawsSucceed pr appeal_prob max_appeals (level + 1) (cur * 2 + 1)
        (simulate_round pr (cur * 2 + 1) (randomRandom s).2).2 L

/-- Formalisation of claim C4 exactly as stated, written from the claim
text rather than from the code: a single gaussian draw with mean 0.5 and
std x_guess_noise, clamped to [0, 1], gives q; each vote option gets the
sum over k = 0 .. N - 1 of the Binomial(N - 1, q) probability of k times
the payoff of the active mechanism for the hypothetical tally, where
voting X gives k + 1 X votes, voting Y gives k X votes and the winner is
decided against majority_needed.  The claim mentions no dependence on the
bribed flag, so the mechanism payoffs are the plain ones (epayTerm with
bribed set to false is exactly that pair of plain mechanism payoffs). -/
def expectedPayoffsClaimed (m : Model) (_juror_index : Nat) (s : RandState) :
    (Rat × Rat) × RandState :=
  let g := randomGauss (1 / 2) m.x_guess_noise s
  let q := max 0 (min 1 g.1)
  (((Finset.range m.num_jurors).sum fun k =>
      binomPmf k (m.num_jurors - 1) q * (epayTerm m false k).1,
    (Finset.range m.num_jurors).sum fun k =>
      binomPmf k (m.num_jurors - 1) q * (epayTerm m false k).2),
   g.2)

/-- The amended formalisation of claim C4: as expectedPayoffsClaimed, but
for a juror whose bribed flag is set the Y-option term uses the X-vote
hypothetical payoff plus epsilon instead of the Y-vote mechanism payoff
(the override of model.py lines 68-69, 73-74 and 78-79), which is what
epayTerm does with the actual bribed flag. -/
def expectedPayoffsBribedAware (m : Model) (juror_index : Nat) (s : RandState) :
    (Rat × Rat) × RandState :=
  let g := randomGauss (1 / 2) m.x_guess_noise s
  let q := max 0 (min 1 g.1)
  let bribed := (m.jurors.getD juror_index (Juror.init 0 0 0)).bribed
  (((Finset.range m.num_jurors).sum fun k =>
      binomPmf k (m.num_jurors - 1) q * (epayTerm m bribed k).1,
    (Finset.range m.num_jurors).sum fun k =>
      binomPmf k (m.num_jurors - 1) q * (epayTerm m bribed k).2),
   g.2)

/-- The all-zero random tape at position 0, used for the concrete runs. -/
def zeroTape : RandState :=
  ⟨fun _ => 0, 0⟩

/-- Concrete configuration for claim C1: one juror, attack enabled, basic
mechanism. -/
def c1Model : Model :=
  OracleModel.init 1 1 1 0 (1 / 2) 1 1 "Basic" true 0

/-- Concrete bribed juror for the C2 witness. -/
def c2Juror : Juror :=
  { honesty := 0, rationality := 0, noise := 0, belief := Lbl.X, bribed := true }

/-- Concrete bribed juror for the C4 counterexample. -/
def c4Juror : Juror :=
  { honesty := 1, rationality := 1, noise := 0, belief := Lbl.X, bribed := true }

/-- Concrete model for the C4 counterexample: a single bribed juror under
attack with the basic mechanism and p = d = epsilon = 1. -/
def c4Model : Model :=
  { num_jurors := 1, honesty := 1, rationality := 1, noise := 0, p := 1, d := 1,
    epsilon := 1, payoff_type := "Basic", attack := true, x_guess_noise := 0,
    jurors := [c4Juror], history_X := [], history_Y := [] }

/-- Concrete degenerate configuration for the C5 witness: an empty panel
gives the tie 0 = 0. -/
def c5Model : Model :=
  OracleModel.init 0 0 0 0 0 0 0 "Basic" false 0

/-- Concrete configuration for the C6 witness. -/
def c6Model : Model :=
  OracleModel.init 1 1 1 0 1 1 1 "Basic" false 0

/-- Concrete head entry of the C6 witness chain. -/
def c6Entry : ChainEntry :=
  entryOf 0 c6Model.num_jurors (simulate_round (paramsOf c6Model) c6Model.num_jurors zeroTape).1

/-- Concrete configuration for the C7 witness. -/
def c7Model : Model :=
  OracleModel.init 1 1 1 0 1 1 1 "Basic" false 0

/-- Concrete invalid configuration for the C8 counterexample: an empty
panel (num_jurors below 1), honesty 2 and rationality -1 outside [0, 1],
negative noise, x_guess_noise, d and epsilon, unrecognized payoff type. -/
def c8Model : Model :=
  OracleModel.init 0 2 (-1) (-1) (1 / 2) (-3) (-1) "Bogus" false (-2)

/-- Concrete configuration for the C9 failing input: one juror, attack
enabled, symbiotic mechanism with d = 1. -/
def c9Model : Model :=
  OracleModel.init 1 1 1 0 1 1 1 "Symbiotic" true 0


/-! Helper lemmas shared by the claim theorems. -/

/-- After step 1 of simulate_once every juror of the walked panel has its
bribed flag reset to false. -/
theorem assignBeliefs_not_bribed (p : Rat) :
    ∀ (js : List Juror) (s : RandState),
      ((assignBeliefs p js s).1.all fun j => j.bribed == false) = true := by
  intro js
  induction js with
  | nil => intro s; rfl
  | cons j js ih =>
    intro s
    simp only [assignBeliefs, List.all_cons, Bool.and_eq_true]
    exact ⟨rfl, ih _⟩

/-- The outcome resolution of model.py line 140 yields X exactly when the
X votes are at least the Y votes. -/
theorem outcomeOf_eq_X_iff (a b : Nat) : outcomeOf a b = Lbl.X ↔ b ≤ a := by
  unfold outcomeOf
  by_cases h : a ≥ b
  · simp [h]
  · simp [h]

/-- The k-loop of _expected_payoffs is the pair of weighted sums over
k = 0 .. n - 1 of probability times hypothetical payoff. -/
theorem epayStep_foldl (m : Model) (b : Bool) (q : Rat) :
    ∀ (n : Nat) (acc : Rat × Rat),
      (List.range n).foldl (epayStep m b q) acc =
        (acc.1 + (Finset.range n).sum
            (fun k => binomPmf k (m.num_jurors - 1) q * (epayTerm m b k).1),
         acc.2 + (Finset.range n).sum
            (fun k => binomPmf k (m.num_jurors - 1) q * (epayTerm m b k).2)) := by
  intro n
  induction n with
  | zero => intro acc; simp
  | succ n ih =>
    intro acc
    rw [List.range_succ, List.foldl_append, ih]
    simp only [List.foldl_cons, List.foldl_nil, epayStep, Finset.sum_range_succ]
    rw [Prod.mk.injEq]
    exact ⟨by ring, by ring⟩

/-- With an unrecognized payoff type the realized-payoff dispatch of
model.py lines 151-168 falls through to 0.0. -/
theorem realizedPayoff_unknown (m : Model) (hb : pyLower m.payoff_type ≠ "basic")
    (hr : pyLower m.payoff_type ≠ "redistributive")
    (hs : pyLower m.payoff_type ≠ "symbiotic")
    (v o : Lbl) (k : Nat) : realizedPayoff m v o k = 0 := by
  unfold realizedPayoff
  cases m.attack <;> simp [hb, hr, hs]

/-- With an unrecognized payoff type both realized-payoff lists consist of
zeroes only. -/
theorem payoffLists_zero (m : Model) (hb : pyLower m.payoff_type ≠ "basic")
    (hr : pyLower m.payoff_type ≠ "redistributive")
    (hs : pyLower m.payoff_type ≠ "symbiotic")
    (allVotes : List Lbl) (o : Lbl) :
    ∀ vs, (∀ x ∈ (payoffLists m allVotes o vs).1, x = 0) ∧
          (∀ x ∈ (payoffLists m allVotes o vs).2, x = 0) := by
  intro vs
  induction vs with
  | nil => exact ⟨by simp [payoffLists], by simp [payoffLists]⟩
  | cons v vs ih =>
    simp only [payoffLists]
    by_cases hv : v = Lbl.X <;>
      simp [hv, realizedPayoff_unknown m hb hr hs] <;>
      exact ⟨fun x hx => (ih.1 x hx), fun x hx => (ih.2 x hx)⟩

/-- The guarded np.mean of model.py line 176 is zero on a list of zeroes,
whether the list is empty or not. -/
theorem zero_mean (l : List Rat) (hl : ∀ x ∈ l, x = 0) :
    (if l.isEmpty then 0 else mean l) = 0 := by
  by_cases h : l.isEmpty
  · simp [h]
  · rw [if_neg h]
    unfold mean
    rw [List.sum_eq_zero hl]
    simp

/-- Every entry list produced by the appeal while loop scales the juror
count by two-plus-one from its predecessor (starting from the count held
before the loop) and records the data of a round run with its own juror
count and the carried configuration. -/
theorem chainLoop_entries (pr : Params) (ap : Rat) (ma : Nat) :
    ∀ (fuel level cur : Nat) (s : RandState), ma - level ≤ fuel →
      (∀ e : ChainEntry, e.jurors = cur →
         List.Chain (fun a b => b.jurors = 2 * a.jurors + 1) e
           (chainLoop pr ap level cur ma s).1) ∧
      (∀ e ∈ (chainLoop pr ap level cur ma s).1,
         ∃ s2, e = entryOf e.level e.jurors (simulate_round pr e.jurors s2).1) := by
  intro fuel
  induction fuel with
  | zero =>
    intro level cur s hf
    rw [chainLoop]
    rw [dif_neg (by omega : ¬ ((randomRandom s).1 < ap ∧ level < ma))]
    exact ⟨fun e _ => List.Chain.nil, fun e he => absurd he (List.not_mem_nil e)⟩
  | succ fuel ih =>
    intro level cur s hf
    rw [chainLoop]
    by_cases hc : (randomRandom s).1 < ap ∧ level < ma
    · rw [dif_pos hc]
      constructor
      · intro e he
        refine List.Chain.cons ?_ ?_
        · show (entryOf (level + 1) (cur * 2 + 1) _).jurors = 2 * e.jurors + 1
          rw [he]
          show cur * 2 + 1 = 2 * cur + 1
          ring
        · exact (ih (level + 1) (cur * 2 + 1) _ (by omega)).1 _ rfl
      · intro e he
        rcases List.mem_cons.mp he with h0 | hrest
        · exact ⟨(randomRandom s).2, by rw [h0]; rfl⟩
        · exact (ih (level + 1) (cur * 2 + 1) _ (by omega)).2 e hrest
    · rw [dif_neg hc]
      exact ⟨fun e _ => List.Chain.nil, fun e he => absurd he (List.not_mem_nil e)⟩

/-- The appeal while loop appends at most ma - level further entries. -/
theorem chainLoop_length (pr : Params) (ap : Rat) (ma : Nat) :
    ∀ (fuel level cur : Nat) (s : RandState), ma - level ≤ fuel →
      (chainLoop pr ap level cur ma s).1.length ≤ ma - level := by
  intro fuel
  induction fuel with
  | zero =>
    intro level cur s hf
    rw [chainLoop, dif_neg (by omega : ¬ ((randomRandom s).1 < ap ∧ level < ma))]
    simp
  | succ fuel ih =>
    intro level cur s hf
    rw [chainLoop]
    by_cases hc : (randomRandom s).1 < ap ∧ level < ma
    · rw [dif_pos hc]
      have h := ih (level + 1) (cur * 2 + 1)
        (simulate_round pr (cur * 2 + 1) (randomRandom s).2).2 (by omega)
      simp only [List.length_cons]
      omega
    · rw [dif_neg hc]
      simp

/-- The levels recorded by the appeal while loop are consecutive, starting
one above the level held before the loop. -/
theorem chainLoop_levels (pr : Params) (ap : Rat) (ma : Nat) :
    ∀ (fuel level cur : Nat) (s : RandState), ma - level ≤ fuel →
      (chainLoop pr ap level cur ma s).1.map ChainEntry.level =
        List.range' (level + 1) (chainLoop pr ap level cur ma s).1.length := by
  intro fuel
  induction fuel with
  | zero =>
    intro level cur s hf
    rw [chainLoop, dif_neg (by omega : ¬ ((randomRandom s).1 < ap ∧ level < ma))]
    simp
  | succ fuel ih =>
    intro level cur s hf
    rw [chainLoop]
    by_cases hc : (randomRandom s).1 < ap ∧ level < ma
    · rw [dif_pos hc]
      simp only [List.map_cons, List.length_cons]
      rw [ih (level + 1) (cur * 2 + 1)
        (simulate_round pr (cur * 2 + 1) (randomRandom s).2).2 (by omega)]
      rw [List.range'_succ]
      rfl
    · rw [dif_neg hc]
      simp

/-- If the appeal while loop produced at least L entries then its first L
continuation draws all succeeded. -/
theorem chainLoop_draws (pr : Params) (ap : Rat) (ma : Nat) :
    ∀ (L level cur : Nat) (s : RandState),
      L ≤ (chainLoop pr ap level cur ma s).1.length →
      drawsSucceed pr ap ma level cur s L := by
  intro L
  induction L with
  | zero => intro level cur s _; exact trivial
  | succ L ih =>
    intro level cur s h
    rw [chainLoop] at h
    by_cases hc : (randomRandom s).1 < ap ∧ level < ma
    · rw [dif_pos hc] at h
      show (randomRandom s).1 < ap ∧ level < ma ∧
        drawsSucceed pr ap ma (level + 1) (cur * 2 + 1)
          (simulate_round pr (cur * 2 + 1) (randomRandom s).2).2 L
      refine ⟨hc.1, hc.2, ih (level + 1) (cur * 2 + 1) _ ?_⟩
      simpa using h
    · rw [dif_neg hc] at h
      simp at h

/-- When its guard holds (draw below appeal_prob and level below the cap)
the appeal while loop appends at least one entry. -/
theorem chainLoop_extends (pr : Params) (ap : Rat) (level cur ma : Nat) (s : RandState)
    (hc : (randomRandom s).1 < ap ∧ level < ma) :
    0 < (chainLoop pr ap level cur ma s).1.length := by
  rw [chainLoop, dif_pos hc]
  simp

/-- The loop of run_simulations preserves every configuration field of the
model: the paired no-attack replay clears the attack flag only between two
writes that restore it within the same iteration. -/
theorem runSimLoop_preserves :
    ∀ (n : Nat) (m : Model) (s : RandState) (hx hy : List Nat),
      (runSimLoop m n s hx hy).1.num_jurors = m.num_jurors ∧
      (runSimLoop m n s hx hy).1.honesty = m.honesty ∧
      (runSimLoop m n s hx hy).1.rationality = m.rationality ∧
      (runSimLoop m n s hx hy).1.noise = m.noise ∧
      (runSimLoop m n s hx hy).1.p = m.p ∧
      (runSimLoop m n s hx hy).1.d = m.d ∧
      (runSimLoop m n s hx hy).1.epsilon = m.epsilon ∧
      (runSimLoop m n s hx hy).1.payoff_type = m.payoff_type ∧
      (runSimLoop m n s hx hy).1.x_guess_noise = m.x_guess_noise ∧
      (runSimLoop m n s hx hy).1.attack = m.attack := by
  intro n
  induction n with
  | zero =>
    intro m s hx hy
    exact ⟨rfl, rfl, rfl, rfl, rfl, rfl, rfl, rfl, rfl, rfl⟩
  | succ n ih =>
    intro m s hx hy
    simp only [runSimLoop]
    cases hA : (simulate_once m s).2.1.attack with
    | true =>
      rw [if_pos rfl]
      have hma : m.attack = true := hA
      rw [hma]
      exact ih _ _ _ _
    | false =>
      rw [if_neg Bool.false_ne_true]
      exact ih _ _ _ _

/-! Claim theorems. -/

unseal Rat.add Rat.mul Rat.inv Rat.sub in
/-- C1: the claimed invariant votes_X + votes_Y = num_jurors fails on the
code.  Concrete failing run: one juror, attack enabled, basic mechanism,
all-zero random tape.  The bribed juror votes the label B (agents.py line
30), which model.py lines 136-137 counts neither as X nor as Y, so both
tallies are zero while the panel has one juror. -/
theorem attack_breaks_vote_count_invariant :
    (simulate_once c1Model zeroTape).1.votesX = 0 ∧
    (simulate_once c1Model zeroTape).1.votesY = 0 ∧
    c1Model.num_jurors = 1 ∧
    (simulate_once c1Model zeroTape).1.votesX + (simulate_once c1Model zeroTape).1.votesY ≠
      c1Model.num_jurors := by decide

/-- C2: a bribed juror votes unconditionally, ignoring the expected-payoff
arguments and the belief, and consumes no random draw - but the returned
label is B (the agents.py convention), not the label Y that the model
counts and that the spec names as the attacker target. -/
theorem bribed_vote_unconditional (j : Juror) (a b : Rat) (s : RandState)
    (h : j.bribed = true) : j.decide_vote a b s = (Lbl.B, s) := by
  unfold Juror.decide_vote
  rw [h]
  simp

/-- Witness for C2 at a concrete bribed juror and concrete payoffs. -/
theorem bribed_vote_unconditional_witness :
    c2Juror.decide_vote 5 (-7) zeroTape = (Lbl.B, zeroTape) :=
  bribed_vote_unconditional c2Juror 5 (-7) zeroTape rfl

/-- C3: in every round simulate_once gives every juror of the panel the
bribed flag equal to the attack switch: all true under attack (full-panel
policy, model.py lines 120-122), all false otherwise (the reset of line
116). -/
theorem bribery_marks_whole_panel (m : Model) (s : RandState) :
    ((simulate_once m s).2.1.jurors.all fun j => j.bribed == m.attack) = true := by
  show ((if m.attack then (assignBeliefs m.p m.jurors s).1.map (fun j => { j with bribed := true })
         else (assignBeliefs m.p m.jurors s).1).all fun j => j.bribed == m.attack) = true
  cases hA : m.attack with
  | true => simp [List.all_map, Function.comp]
  | false => simpa using assignBeliefs_not_bribed m.p m.jurors s

unseal Rat.add Rat.mul Rat.inv Rat.sub in
/-- C4 counterexample: for a bribed juror under attack the Y-option
expectation of the code is not the claimed sum of Binomial(N-1, q)
probabilities times the mechanism payoff of the Y-vote hypothetical tally:
with one bribed juror, basic mechanism, p = d = epsilon = 1, the code
gives 3 (the X-branch payoff 2 plus epsilon, model.py line 69) while the
claimed formula gives 2. -/
theorem expected_payoffs_claim_counterexample :
    (expectedPayoffs c4Model 0 zeroTape).1.2 = 3 ∧
    (expectedPayoffsClaimed c4Model 0 zeroTape).1.2 = 2 ∧
    (expectedPayoffs c4Model 0 zeroTape).1.2 ≠ (expectedPayoffsClaimed c4Model 0 zeroTape).1.2 := by
  decide

/-- C4 amended: _expected_payoffs draws a single peer-vote probability q
from Normal(0.5, x_guess_noise), clamps it to [0, 1], and returns for each
vote option the sum over k = 0 .. N - 1 of the Binomial(N-1, q)
probability of k times the active mechanism payoff for the hypothetical
tally (voting X gives k + 1 X votes, voting Y gives k X votes, winner
decided by comparison with majority_needed), except that for a juror whose
bribed flag is set the Y-option term uses the X-vote hypothetical payoff
plus epsilon instead. -/
theorem expected_payoffs_formula (m : Model) (i : Nat) (s : RandState) :
    expectedPayoffs m i s = expectedPayoffsBribedAware m i s := by
  simp only [expectedPayoffs, expectedPayoffsBribedAware]
  rw [epayStep_foldl]
  simp

/-- C5: in every round the outcome is X when the tallies tie and, in
general, the outcome is X exactly when votes_X is at least votes_Y. -/
theorem outcome_tiebreak_and_majority (m : Model) (s : RandState) :
    ((simulate_once m s).1.votesX = (simulate_once m s).1.votesY →
      (simulate_once m s).1.outcome = Lbl.X) ∧
    ((simulate_once m s).1.outcome = Lbl.X ↔
      (simulate_once m s).1.votesY ≤ (simulate_once m s).1.votesX) := by
  have hdef : (simulate_once m s).1.outcome
      = outcomeOf (simulate_once m s).1.votesX (simulate_once m s).1.votesY := rfl
  constructor
  · intro hv
    rw [hdef, hv]
    unfold outcomeOf
    simp
  · rw [hdef]
    exact outcomeOf_eq_X_iff _ _

/-- Witness for C5 at a concrete tied round (empty panel, 0 = 0). -/
theorem outcome_tiebreak_and_majority_witness :
    (simulate_once c5Model zeroTape).1.outcome = Lbl.X :=
  (outcome_tiebreak_and_majority c5Model zeroTape).1 rfl

/-- C6: every appeal chain scales the juror count by 2 * current + 1 at
every transition that occurs, and every entry of the chain records the
data of a round run by a freshly constructed model (simulate_round builds
OracleModel anew) with that juror count and the otherwise identical
carried configuration. -/
theorem appeal_scaling_and_fresh_rounds (m : Model) (ap : Rat) (ma : Nat) (s : RandState) :
    List.Chain' (fun a b => b.jurors = 2 * a.jurors + 1) (simulate_appeal_chain m ap ma s).1 ∧
    ∀ e ∈ (simulate_appeal_chain m ap ma s).1,
      ∃ s2, e = entryOf e.level e.jurors (simulate_round (paramsOf m) e.jurors s2).1 := by
  have h := chainLoop_entries (paramsOf m) ap ma ma 0 m.num_jurors
    ((simulate_round (paramsOf m) m.num_jurors s).2) (by omega)
  constructor
  · exact h.1 (entryOf 0 m.num_jurors (simulate_round (paramsOf m) m.num_jurors s).1) rfl
  · intro e he
    rcases List.mem_cons.mp he with h0 | hrest
    · exact ⟨s, by rw [h0]; rfl⟩
    · exact h.2 e hrest

unseal Rat.add Rat.mul Rat.inv Rat.sub in
/-- Witness for C6 at a concrete one-entry chain. -/
theorem appeal_scaling_and_fresh_rounds_witness :
    List.Chain' (fun a b => b.jurors = 2 * a.jurors + 1)
      (simulate_appeal_chain c6Model 0 0 zeroTape).1 ∧
    ∃ s2, c6Entry = entryOf c6Entry.level c6Entry.jurors
      (simulate_round (paramsOf c6Model) c6Entry.jurors s2).1 :=
  ⟨(appeal_scaling_and_fresh_rounds c6Model 0 0 zeroTape).1,
   (appeal_scaling_and_fresh_rounds c6Model 0 0 zeroTape).2 c6Entry
     (List.mem_cons_self _ _)⟩

/-- C7: every appeal chain has length at most max_appeals + 1, is
nonempty, its recorded levels are exactly 0, 1, ..., length - 1 (so it
always contains a level-0 entry and an entry at level L exists exactly
when the chain reached length above L), and an entry at a level L above
zero exists only if the first L continuation draws of the loop all
succeeded. -/
theorem appeal_chain_termination_bound (m : Model) (ap : Rat) (ma : Nat) (s : RandState) :
    (simulate_appeal_chain m ap ma s).1.length ≤ ma + 1 ∧
    0 < (simulate_appeal_chain m ap ma s).1.length ∧
    (simulate_appeal_chain m ap ma s).1.map ChainEntry.level =
      List.range (simulate_appeal_chain m ap ma s).1.length ∧
    (∀ L, 0 < L → L < (simulate_appeal_chain m ap ma s).1.length →
      drawsSucceed (paramsOf m) ap ma 0 m.num_jurors
        ((simulate_round (paramsOf m) m.num_jurors s).2) L) := by
  have hlen := chainLoop_length (paramsOf m) ap ma ma 0 m.num_jurors
    ((simulate_round (paramsOf m) m.num_jurors s).2) (by omega)
  have hlev := chainLoop_levels (paramsOf m) ap ma ma 0 m.num_jurors
    ((simulate_round (paramsOf m) m.num_jurors s).2) (by omega)
  refine ⟨?_, ?_, ?_, ?_⟩
  · show (chainLoop (paramsOf m) ap 0 m.num_jurors ma
      ((simulate_round (paramsOf m) m.num_jurors s).2)).1.length + 1 ≤ ma + 1
    omega
  · show 0 < (chainLoop (paramsOf m) ap 0 m.num_jurors ma
      ((simulate_round (paramsOf m) m.num_jurors s).2)).1.length + 1
    omega
  · show ChainEntry.level (entryOf 0 m.num_jurors (simulate_round (paramsOf m) m.num_jurors s).1) ::
      (chainLoop (paramsOf m) ap 0 m.num_jurors ma
        ((simulate_round (paramsOf m) m.num_jurors s).2)).1.map ChainEntry.level =
      List.range ((chainLoop (paramsOf m) ap 0 m.num_jurors ma
        ((simulate_round (paramsOf m) m.num_jurors s).2)).1.length + 1)
    rw [hlev, List.range_eq_range', List.range'_succ]
    rfl
  · intro L _ hL
    refine chainLoop_draws (paramsOf m) ap ma L 0 m.num_jurors _ ?_
    have : (simulate_appeal_chain m ap ma s).1.length =
      (chainLoop (paramsOf m) ap 0 m.num_jurors ma
        ((simulate_round (paramsOf m) m.num_jurors s).2)).1.length + 1 := rfl
    omega

unseal Rat.add Rat.mul Rat.inv Rat.sub in
/-- Witness for C7 at a concrete chain of length two (appeal probability 1,
one allowed appeal, all-zero tape). -/
theorem appeal_chain_termination_bound_witness :
    (simulate_appeal_chain c7Model 1 1 zeroTape).1.length ≤ 2 ∧
    drawsSucceed (paramsOf c7Model) 1 1 0 c7Model.num_jurors
      ((simulate_round (paramsOf c7Model) c7Model.num_jurors zeroTape).2) 1 := by
  have hpos : 0 < (chainLoop (paramsOf c7Model) 1 0 c7Model.num_jurors 1
      ((simulate_round (paramsOf c7Model) c7Model.num_jurors zeroTape).2)).1.length :=
    chainLoop_extends (paramsOf c7Model) 1 0 c7Model.num_jurors 1
      ((simulate_round (paramsOf c7Model) c7Model.num_jurors zeroTape).2) (by decide)
  have hlen : 1 < (simulate_appeal_chain c7Model 1 1 zeroTape).1.length := by
    show 1 < (chainLoop (paramsOf c7Model) 1 0 c7Model.num_jurors 1
      ((simulate_round (paramsOf c7Model) c7Model.num_jurors zeroTape).2)).1.length + 1
    omega
  exact ⟨(appeal_chain_termination_bound c7Model 1 1 zeroTape).1,
    (appeal_chain_termination_bound c7Model 1 1 zeroTape).2.2.2 1 (by omega) hlen⟩

unseal Rat.add Rat.mul Rat.inv Rat.sub in
/-- C8 counterexample: the claim says an invalid configuration fails at
construction and never simulates, but __init__ (model.py lines 15-37)
validates nothing: a configuration with num_jurors = 0, honesty 2,
negative noise and deposits and an unrecognized payoff type is stored
as-is and a full round of simulate_once completes normally on it. -/
theorem invalid_config_constructs_and_runs :
    c8Model.num_jurors = 0 ∧
    (simulate_once c8Model zeroTape).1 =
      { outcome := Lbl.X, votesX := 0, votesY := 0, avgX := 0, avgY := 0 } := by
  decide

/-- C8 amended: construction performs no validation - the parameters are
stored verbatim whatever their values - and simulation proceeds on any
configuration; an unrecognized payoff type silently yields 0.0 realized
payoffs on both sides (the else branches of model.py lines 158-168)
rather than an error. -/
theorem construction_accepts_anything (n : Nat) (h r no p d e : Rat) (pt : String)
    (a : Bool) (x : Rat) (s : RandState)
    (hb : pyLower pt ≠ "basic") (hr2 : pyLower pt ≠ "redistributive")
    (hs2 : pyLower pt ≠ "symbiotic") :
    (OracleModel.init n h r no p d e pt a x).num_jurors = n ∧
    (OracleModel.init n h r no p d e pt a x).payoff_type = pt ∧
    (simulate_once (OracleModel.init n h r no p d e pt a x) s).1.avgX = 0 ∧
    (simulate_once (OracleModel.init n h r no p d e pt a x) s).1.avgY = 0 := by
  refine ⟨rfl, rfl, ?_, ?_⟩ <;>
  · simp only [simulate_once]
    apply zero_mean
    first
    | exact (payoffLists_zero _ hb hr2 hs2 _ _ _).1
    | exact (payoffLists_zero _ hb hr2 hs2 _ _ _).2

unseal Rat.add Rat.mul Rat.inv Rat.sub in
/-- Witness for the amended C8 at a concrete unrecognized payoff type. -/
theorem construction_accepts_anything_witness :
    (OracleModel.init 3 2 (-1) (-1) 1 (-3) (-1) "Bogus" false (-2)).num_jurors = 3 ∧
    (OracleModel.init 3 2 (-1) (-1) 1 (-3) (-1) "Bogus" false (-2)).payoff_type = "Bogus" ∧
    (simulate_once (OracleModel.init 3 2 (-1) (-1) 1 (-3) (-1) "Bogus" false (-2)) zeroTape).1.avgX = 0 ∧
    (simulate_once (OracleModel.init 3 2 (-1) (-1) 1 (-3) (-1) "Bogus" false (-2)) zeroTape).1.avgY = 0 :=
  construction_accepts_anything 3 2 (-1) (-1) 1 (-3) (-1) "Bogus" false (-2) zeroTape
    (by decide) (by decide) (by decide)

unseal Rat.add Rat.mul Rat.inv Rat.sub in
/-- C9: the Y-side half of the empty-side averaging convention fails on
the code.  Concrete failing run: one juror, attack enabled, symbiotic
mechanism, d = 1.  The bribed juror votes the label B, so votes_Y = 0,
yet the else of model.py line 172 appends the B-vote payoff (the
spec-modelled symbiotic loser payoff 1/2) to the Y side, whose reported
average is then 1/2 instead of the claimed 0.0. -/
theorem empty_Y_side_average_nonzero :
    (simulate_once c9Model zeroTape).1.votesY = 0 ∧
    (simulate_once c9Model zeroTape).1.avgY = 1 / 2 ∧
    (simulate_once c9Model zeroTape).1.avgY ≠ 0 := by decide

/-- C10: run_simulations leaves every configuration field of the model as
it was - num_jurors, honesty, rationality, noise, p, d, epsilon,
payoff_type, x_guess_noise and attack - even though the paired no-attack
replay clears and restores the attack flag mid-loop. -/
theorem run_simulations_preserves_config (m : Model) (n : Nat) (s : RandState) :
    (run_simulations m n s).1.num_jurors = m.num_jurors ∧
    (run_simulations m n s).1.honesty = m.honesty ∧
    (run_simulations m n s).1.rationality = m.rationality ∧
    (run_simulations m n s).1.noise = m.noise ∧
    (run_simulations m n s).1.p = m.p ∧
    (run_simulations m n s).1.d = m.d ∧
    (run_simulations m n s).1.epsilon = m.epsilon ∧
    (run_simulations m n s).1.payoff_type = m.payoff_type ∧
    (run_simulations m n s).1.x_guess_noise = m.x_guess_noise ∧
    (run_simulations m n s).1.attack = m.attack :=
  runSimLoop_preserves n { m with history_X := [], history_Y := [] } s [] []

end Oracle
